import Mathlib

/-!
Shallow embedding of the frogmouth image subsystem:
`frogmouth/utility/image_resolver.py` (ImageResolver, ImageLoadResult),
`frogmouth/widgets/markdown.py` (ImageMarkdown.update, ImageMarkdownParagraph.build_from_token,
MarkdownImage lifecycle).  Pure Python functions became Lean functions; the stateful
resolver is explicit state passing; the exceptions of the remote-fetch path live in an
`Except` monad so that exception behaviour is visible in the embedding.
-/

namespace Frogmouth

/-- Raw byte content of a remote fetch (each entry one byte value). -/
abbrev Bytes := List Nat

/-! ## Character-level string helpers

The embedding manipulates strings through their character lists with structural
recursion, mirroring the Python string operations used by the source
(`str.split`, `str.startswith`, `str.endswith`, `int(...)`, `str.rstrip`). -/

/-- Is the first character list a prefix of the second? -/
def charsStarts : List Char → List Char → Bool
  | [], _ => true
  | _ :: _, [] => false
  | a :: as, b :: bs => if a = b then charsStarts as bs else false

/-- Split a character list on a single separator character (`str.split(sep)`,
keeping empty pieces). -/
def splitChar (sep : Char) : List Char → List (List Char)
  | [] => [[]]
  | c :: rest =>
    let parts := splitChar sep rest
    if c = sep then [] :: parts
    else
      match parts with
      | [] => [[c]]
      | cur :: more => (c :: cur) :: more

/-- Split a string on one character, as a list of strings. -/
def strSplitChar (sep : Char) (s : String) : List String :=
  (splitChar sep s.data).map (fun cs => String.mk cs)

/-- Does the string start with the given prefix string? -/
def strStarts (pre : String) (s : String) : Bool :=
  charsStarts pre.data s.data

/-- Does the string end with the given suffix string? -/
def strEnds (suf : String) (s : String) : Bool :=
  charsStarts suf.data.reverse s.data.reverse

/-- Split around the first occurrence of `://`: the text before it and the text
after it, or nothing when the separator does not occur. -/
def findSchemeSplit : List Char → Option (List Char × List Char)
  | [] => none
  | c :: rest =>
    if charsStarts [':', '/', '/'] (c :: rest) then some ([], rest.drop 2)
    else
      match findSchemeSplit rest with
      | none => none
      | some (pre, post) => some (c :: pre, post)

/-- The decimal value of one digit character, when it is one. -/
def digitOf (c : Char) : Option Nat :=
  if 48 ≤ c.toNat ∧ c.toNat ≤ 57 then some (c.toNat - 48) else none

/-- Parse a nonempty all-digit character list (`int(...)`, which rejects anything
else). -/
def charsToNat : List Char → Nat → Option Nat
  | [], acc => some acc
  | c :: rest, acc =>
    match digitOf c with
    | none => none
    | some d => charsToNat rest (acc * 10 + d)

def strToNat (s : String) : Option Nat :=
  match s.data with
  | [] => none
  | cs => charsToNat cs 0

/-- Drop the first `n` characters of a string (`s[n:]`). -/
def strDrop (n : Nat) (s : String) : String :=
  String.mk (s.data.drop n)

def isSpaceChar (c : Char) : Bool :=
  c.toNat = 32 || c.toNat = 9 || c.toNat = 10 || c.toNat = 13

/-- Strip trailing whitespace (`str.rstrip()`). -/
def strTrimRight (s : String) : String :=
  String.mk ((s.data.reverse.dropWhile isSpaceChar).reverse)

/-! ## Filesystem paths (embedding of the `pathlib.Path` operations the resolver uses)

`pathlib` drops empty segments and bare `.` segments at construction time, keeps `..`,
and marks absoluteness by a leading `/`.  A symlink-free filesystem is assumed, so an
existence query on a path is an existence query on its textually normalized form. -/

structure FsPath where
  absolute : Bool
  segs : List String
deriving DecidableEq, Repr

/-- Embedding of `Path(source)`: leading `/` means absolute; empty and `.` segments
are dropped by `pathlib` at construction; `..` is kept. -/
def parsePath (s : String) : FsPath :=
  { absolute := strStarts "/" s
    segs := (strSplitChar '/' s).filter (fun seg => seg ≠ "" && seg ≠ ".") }

/-- Embedding of `str(path)` for a `pathlib` path. -/
def pathToString (p : FsPath) : String :=
  if p.absolute then
    "/" ++ String.intercalate "/" p.segs
  else if p.segs = [] then "." else String.intercalate "/" p.segs

/-- Embedding of `base / candidate` for a relative `candidate`. -/
def joinPath (base : FsPath) (candidate : FsPath) : FsPath :=
  { absolute := base.absolute, segs := base.segs ++ candidate.segs }

/-- Embedding of `Path.expanduser`: a relative path whose first segment is `~`
is re-rooted at the home directory; anything else is unchanged. -/
def expanduser (home : FsPath) (p : FsPath) : FsPath :=
  if ¬ p.absolute ∧ p.segs.head? = some "~" then
    { absolute := home.absolute, segs := home.segs ++ p.segs.tail }
  else p

/-- Collapse `..` segments against their parent (a `..` at the root disappears),
as the operating system does when walking a symlink-free tree. -/
def normalizeSegs (segs : List String) : List String :=
  segs.foldl (fun acc seg => if seg = ".." then acc.dropLast else acc ++ [seg]) []

/-- Embedding of `Path.resolve` over a symlink-free filesystem: make the path
absolute against the working directory and collapse `..` segments. -/
def resolvePath (cwd : FsPath) (p : FsPath) : FsPath :=
  let q := if p.absolute then p else { absolute := true, segs := cwd.segs ++ p.segs }
  { absolute := true, segs := normalizeSegs q.segs }

/-- The ambient process state the local path branch reads: the working directory,
the home directory, and which (normalized, absolute) paths exist.  Existence is
queried on the normalized form, modelling a symlink-free filesystem. -/
structure FsEnv where
  cwd : FsPath
  home : FsPath
  fileExists : FsPath → Bool

/-! ## URLs (embedding of the `httpx.URL` operations the resolver uses) -/

structure Url where
  scheme : String
  body : String
deriving DecidableEq, Repr

/-- Embedding of `URL(source)`: text before a `://` separator is the scheme,
otherwise the URL is relative with an empty scheme. -/
def urlParse (s : String) : Url :=
  match findSchemeSplit s.data with
  | none => { scheme := "", body := s }
  | some (pre, post) => { scheme := String.mk pre, body := String.mk post }

/-- Embedding of `str(url)`. -/
def urlToString (u : Url) : String :=
  if u.scheme = "" then u.body else u.scheme ++ "://" ++ u.body

/-- Embedding of `base.join(reference)` (httpx / RFC 3986 relative joining),
restricted to the shapes the resolver meets: a reference with an explicit scheme
replaces the base; a root-relative reference keeps only the authority; any other
reference replaces the last path segment of the base. -/
def joinUrl (base : Url) (reference : String) : Url :=
  let direct := urlParse reference
  if direct.scheme ≠ "" then direct
  else if strStarts "/" reference then
    { scheme := base.scheme, body := ((strSplitChar '/' base.body).headD "") ++ reference }
  else
    { scheme := base.scheme
      body := String.intercalate "/"
        ((strSplitChar '/' base.body).dropLast ++ strSplitChar '/' reference) }

/-! ## Resolver state and outcomes (`image_resolver.py`) -/

/-- The payload of a successful resolution: raw bytes or a filesystem path
(`ImageLoadResult.payload`). -/
inductive Payload where
  | bytes (content : Bytes)
  | path (p : FsPath)
deriving DecidableEq, Repr

/-- Embedding of the frozen dataclass `ImageLoadResult`. -/
structure ImageLoadResult where
  location : String
  payload : Option Payload
  error : Option String := none
deriving DecidableEq, Repr

/-- Embedding of the mutable fields of `ImageResolver`: the mutually exclusive
base locations, the remote cache (most recent insertion first, looked up by key),
and whether the lazily constructed HTTP client exists. -/
structure ResolverState where
  basePath : Option FsPath := none
  baseUrl : Option Url := none
  cache : List (String × Bytes) := []
  clientCreated : Bool := false
deriving DecidableEq, Repr

/-- Cache lookup (`key in self._cache` / `self._cache[key]`). -/
def cacheLookup (cache : List (String × Bytes)) (key : String) : Option Bytes :=
  match cache.find? (fun kv => kv.fst = key) with
  | some kv => some kv.snd
  | none => none

/-- Embedding of `ImageResolver._coerce_url`.  `URL(source)` raising `ValueError`
is modelled by the total `urlParse` (the method catches that exception locally and
proceeds as if the direct parse had not produced a URL). -/
def coerceUrl (st : ResolverState) (source : String) : Option Url :=
  let direct := urlParse source
  if direct.scheme = "http" ∨ direct.scheme = "https" then some direct
  else if direct.scheme ≠ "" then none
  else
    match st.baseUrl with
    | none => none
    | some base =>
      let joined := joinUrl base source
      if joined.scheme = "http" ∨ joined.scheme = "https" then some joined else none

/-- Embedding of `ImageResolver._resolve_local`.  The candidate is used verbatim
when absolute; otherwise it is joined under the base path (or the working
directory), user-expanded and resolved.  The existence check consults the
environment on the normalized form. -/
def resolveLocal (env : FsEnv) (st : ResolverState) (source : String) : ImageLoadResult :=
  let candidate := parsePath source
  let candidate :=
    if ¬ candidate.absolute then
      let basePath := st.basePath.getD env.cwd
      resolvePath env.cwd (expanduser env.home (joinPath basePath candidate))
    else candidate
  if env.fileExists (resolvePath env.cwd candidate) then
    { location := pathToString candidate, payload := some (Payload.path candidate), error := none }
  else
    { location := pathToString candidate, payload := none, error := some "Image file not found" }

/-! ## Remote resolution (`ImageResolver._resolve_remote`)

The HTTP client is abstracted as a transport function from a URL to one of three
behaviours: a successful body, an HTTP status error (what `raise_for_status` turns
into an `HTTPStatusError`) or a transport-level error (`RequestError`).  The Python
exceptions live in an `Except PyExc` monad so that the `try`/`except` structure of
the source — and hence which exceptions can escape — is visible in the embedding. -/

/-- One observable behaviour of the HTTP transport for a given URL. -/
inductive TransportBehavior where
  | ok (content : Bytes)
  | statusErr (message : String)
  | reqErr (message : String)
deriving DecidableEq, Repr

/-- The mocked / real HTTP layer: what `client.get` followed by
`raise_for_status` would observe for each URL. -/
abbrev Transport := Url → TransportBehavior

/-- The exceptions that the remote-fetch path of the resolver can raise. -/
inductive PyExc where
  | httpStatusError (message : String)
  | requestError (message : String)
deriving DecidableEq, Repr

/-- Embedding of `await client.get(url, follow_redirects=True)` followed by
`response.raise_for_status()`: a status failure raises `HTTPStatusError`, a
transport failure raises `RequestError`, otherwise the body is returned. -/
def clientGet (transport : Transport) (url : Url) : Except PyExc Bytes :=
  match transport url with
  | TransportBehavior.ok content => Except.ok content
  | TransportBehavior.statusErr message => Except.error (PyExc.httpStatusError message)
  | TransportBehavior.reqErr message => Except.error (PyExc.requestError message)

/-- Embedding of `ImageResolver._resolve_remote`.  Besides the outcome it returns
the updated resolver state and the list of URLs for which the transport was
actually invoked (empty on the cache-hit path, which returns before any client
use).  `_ensure_client` is the `clientCreated := true` update. -/
def resolveRemote (transport : Transport) (st : ResolverState) (url : Url) :
    Except PyExc (ImageLoadResult × ResolverState × List String) :=
  let key := urlToString url
  match cacheLookup st.cache key with
  | some content =>
    Except.ok ({ location := key, payload := some (Payload.bytes content), error := none }, st, [])
  | none =>
    let st1 := { st with clientCreated := true }
    match clientGet transport url with
    | Except.error (PyExc.httpStatusError message) =>
      Except.ok ({ location := key, payload := none, error := some message }, st1, [key])
    | Except.error (PyExc.requestError message) =>
      Except.ok ({ location := key, payload := none, error := some message }, st1, [key])
    | Except.ok content =>
      Except.ok
        ({ location := key, payload := some (Payload.bytes content), error := none },
          { st1 with cache := (key, content) :: st1.cache }, [key])

/-- Embedding of `ImageResolver.resolve`: the empty-source guard, classification
through `_coerce_url`, then the local or remote branch.  The result triple is
(outcome, updated resolver state, transport invocations). -/
def resolve (transport : Transport) (env : FsEnv) (st : ResolverState) (source : String) :
    Except PyExc (ImageLoadResult × ResolverState × List String) :=
  if source = "" then
    Except.ok ({ location := "", payload := none, error := some "Empty image source" }, st, [])
  else
    match coerceUrl st source with
    | some url => resolveRemote transport st url
    | none => Except.ok (resolveLocal env st source, st, [])

/-- Embedding of `ImageResolver.update_location` for the three input shapes:
a filesystem path (a file-like path contributes its parent, a directory itself),
a URL, or nothing.  `location.is_file()` is answered by the environment; a path
with a suffix (a final segment containing a dot after its first character) is
file-like even when absent from the filesystem. -/
def hasSuffix (p : FsPath) : Bool :=
  match p.segs.getLast? with
  | none => false
  | some seg => (strSplitChar '.' (strDrop 1 seg)).length > 1

def parentPath (p : FsPath) : FsPath :=
  { absolute := p.absolute, segs := p.segs.dropLast }

inductive Location where
  | path (p : FsPath)
  | url (u : Url)
  | none
deriving DecidableEq, Repr

def updateLocation (env : FsEnv) (st : ResolverState) (location : Location) : ResolverState :=
  match location with
  | Location.path p =>
    if env.fileExists (resolvePath env.cwd p) || hasSuffix p then
      { st with basePath := some (parentPath p), baseUrl := none }
    else
      { st with basePath := some p, baseUrl := none }
  | Location.url u => { st with baseUrl := some u, basePath := none }
  | Location.none => { st with basePath := none, baseUrl := none }

/-! ## MarkdownImage lifecycle (`widgets/markdown.py`, class `MarkdownImage`)

The widget's mutable attributes become a record; `on_mount`, `on_unmount` and the
two ways the `_load` task can finish (deliver a result, or observe cancellation)
become transition functions.  Per the asyncio interface (spec section 5), once a
task has been cancelled its pending `await` raises `CancelledError` instead of
returning, so the completion body runs only for a live, uncancelled task; that
scheduler guarantee is the `taskCancelled` guard in `loadFinish`. -/

structure MIState where
  source : String
  altText : String
  title : String
  supportAvailable : Bool
  linkHref : Option String
  loadTask : Bool := false
  taskCancelled : Bool := false
  imageWidget : Bool := false
  lastError : Option String := none
  shown : String := ""
  tooltip : Option String := none
  hasLinkStyle : Bool := false
deriving DecidableEq, Repr

/-- `self._alt_text or self._title or self._source`. -/
def initialCaption (s : MIState) : String :=
  if s.altText ≠ "" then s.altText else if s.title ≠ "" then s.title else s.source

/-- Embedding of `MarkdownImage.__init__`: stores the attributes and shows the
initial caption. -/
def mkImageBlockState (source altText title : String) (supportAvailable : Bool)
    (linkHref : Option String) : MIState :=
  let s : MIState :=
    { source := source, altText := altText, title := title
      supportAvailable := supportAvailable, linkHref := linkHref }
  { s with shown := initialCaption s }

/-- Embedding of `MarkdownImage.on_mount`: without image support the block fails
with the fixed message and no load task is ever created (the resolver is only
reachable from inside a load task); with support a load task is created. -/
def onMount (s : MIState) : MIState :=
  if s.supportAvailable = false then
    let msg := "Inline images require textual-image"
    { s with lastError := some msg, shown := initialCaption s ++ " (" ++ msg ++ ")" }
  else
    { s with loadTask := true }

/-- Embedding of `MarkdownImage.on_unmount`: a pending task is cancelled and the
handle dropped; with no pending task nothing happens.  The body performs no
raising operation. -/
def onUnmount (s : MIState) : MIState :=
  if s.loadTask then { s with loadTask := false, taskCancelled := true } else s

/-- Embedding of the `except CancelledError` arm of `MarkdownImage._load` together
with its `finally`: the coroutine returns, the task handle is cleared, and no
other attribute is touched. -/
def observeCancel (s : MIState) : MIState :=
  { s with loadTask := false }

/-- Embedding of the rest of `MarkdownImage._load` after `resolve` returns
`result`, for a live task (see the module comment for the cancellation guard):
an error shows the suffixed caption; a missing payload is "Unsupported image
payload"; otherwise the image widget is mounted, the caption cleared and the
tooltip set.  The `finally` clears the task handle on every path. -/
def loadFinish (result : ImageLoadResult) (s : MIState) : MIState :=
  if s.taskCancelled then s
  else
    let s := { s with loadTask := false }
    match result.error with
    | some err =>
      { s with lastError := some err
               shown := if initialCaption s ≠ "" then initialCaption s ++ " (" ++ err ++ ")" else err }
    | none =>
      match result.payload with
      | none =>
        let msg := "Unsupported image payload"
        { s with lastError := some msg, shown := initialCaption s ++ " (" ++ msg ++ ")" }
      | some _ =>
        { s with imageWidget := true
                 hasLinkStyle := (match s.linkHref with | some h => h ≠ "" | none => false)
                 lastError := none
                 shown := ""
                 tooltip := if result.location ≠ "" then some result.location else s.tooltip }

/-! ## Token model (markdown-it tokens, at the interface the builder reads)

The builder reads `type`, `tag`, `info`, `content` and, for inline tokens, the
children with their `src` / `alt` / `title` / `href` attributes (absent
attributes are the empty string, as produced by `attr_as_str` / `.get(..., "")`). -/

structure InlineTok where
  type : String
  content : String := ""
  attrSrc : String := ""
  attrAlt : String := ""
  attrTitle : String := ""
  attrHref : String := ""
deriving DecidableEq, Repr

structure Token where
  type : String
  tag : String := ""
  info : String := ""
  content : String := ""
  children : List InlineTok := []
deriving DecidableEq, Repr

/-- A Rich style is modelled as the list of component fragments composed into it;
`+` on styles is list append, the empty style is `[]`. -/
abbrev Style := List String

/-! ## Block nodes

One node per builder-created widget.  Textual's `MarkdownBlock` (an external
collaborator, spec section 3/6) carries an ordered sequence of pending child
blocks which `_blocks` appends to and which the block exposes as its children;
`blocks` is that sequence.  `contentText` is what `set_content` last received,
`frogHeadingText` the attribute injected for table-of-contents capture. -/

inductive BlockKind where
  | heading (tag : String)
  | horizontalRule
  | paragraph
  | blockQuote
  | bulletList
  | orderedList
  | unorderedListItem (bullet : String)
  | orderedListItem (info : String)
  | table
  | tbody
  | thead
  | trow
  | th
  | td
  | fence (content : String) (info : String)
  | image (source : String) (altText : String) (title : String) (style : Style)
      (linkHref : Option String)
deriving DecidableEq, Repr

inductive Block where
  | node (kind : BlockKind) (idStr : Option String) (blocks : List Block)
      (contentText : List (String × Style)) (frogHeadingText : Option String)
deriving Repr

def Block.kind : Block → BlockKind
  | Block.node k _ _ _ _ => k

def Block.idStr : Block → Option String
  | Block.node _ i _ _ _ => i

def Block.blocks : Block → List Block
  | Block.node _ _ b _ _ => b

def Block.contentText : Block → List (String × Style)
  | Block.node _ _ _ c _ => c

def Block.frogHeadingText : Block → Option String
  | Block.node _ _ _ _ h => h

/-- A fresh block of a given kind with no id (the builder only assigns ids to
headings). -/
def Block.fresh (kind : BlockKind) : Block :=
  Block.node kind none [] [] none

def Block.isHeading (b : Block) : Bool :=
  match b.kind with
  | BlockKind.heading _ => true
  | _ => false

def Block.isUnorderedItem (b : Block) : Bool :=
  match b.kind with
  | BlockKind.unorderedListItem _ => true
  | _ => false

/-- `parent._blocks.append(child)`. -/
def Block.appendChild (parent : Block) (child : Block) : Block :=
  match parent with
  | Block.node k i b c h => Block.node k i (b ++ [child]) c h

def Block.withFrogHeadingText (b : Block) (text : String) : Block :=
  match b with
  | Block.node k i bs c _ => Block.node k i bs c (some text)

/-! ## Inline span builder (`ImageMarkdownParagraph.build_from_token`)

The style stack, link stack, accumulated text and accumulated image blocks of the
Python loop become an accumulator record; `list.pop()` / `list[-1]` on an empty
Python list raises `IndexError`, which the embedding reports as `none`. -/

structure InlineAcc where
  styleStack : List Style
  linkStack : List (Option String)
  content : List (String × Style)
  hasNonImageText : Bool
  newBlocks : List Block

/-- `child.attrs.get("alt") or child.attrs.get("src") or "image"` (Python truthiness
chain over possibly-empty attribute strings). -/
def imageCaption (alt src : String) : String :=
  if alt ≠ "" then alt else if src ≠ "" then src else "image"

/-- One iteration of the `for child in token.children` loop. -/
def inlineStep (acc : InlineAcc) (child : InlineTok) : Option InlineAcc :=
  if child.type = "text" then
    match acc.styleStack.head? with
    | none => none
    | some top =>
      some { acc with content := acc.content ++ [(child.content, top)], hasNonImageText := true }
  else if child.type = "hardbreak" then
    some { acc with content := acc.content ++ [("\n", [])], hasNonImageText := true }
  else if child.type = "softbreak" then
    match acc.styleStack.head? with
    | none => none
    | some top =>
      some { acc with content := acc.content ++ [(" ", top)], hasNonImageText := true }
  else if child.type = "code_inline" then
    match acc.styleStack.head? with
    | none => none
    | some top =>
      some { acc with content := acc.content ++ [(child.content, top ++ ["code_inline"])]
                      hasNonImageText := true }
  else if child.type = "em_open" then
    match acc.styleStack.head? with
    | none => none
    | some top => some { acc with styleStack := (top ++ ["em"]) :: acc.styleStack }
  else if child.type = "strong_open" then
    match acc.styleStack.head? with
    | none => none
    | some top => some { acc with styleStack := (top ++ ["strong"]) :: acc.styleStack }
  else if child.type = "s_open" then
    match acc.styleStack.head? with
    | none => none
    | some top => some { acc with styleStack := (top ++ ["s"]) :: acc.styleStack }
  else if child.type = "link_open" then
    match acc.styleStack.head? with
    | none => none
    | some top =>
      some { acc with styleStack := (top ++ ["@click=link(" ++ child.attrHref ++ ")"]) :: acc.styleStack
                      linkStack := some child.attrHref :: acc.linkStack }
  else if child.type = "image" then
    match acc.styleStack.head?, acc.linkStack.head? with
    | some top, some link =>
      let blk := Block.fresh
        (BlockKind.image child.attrSrc child.attrAlt child.attrTitle top link)
      let acc := { acc with newBlocks := acc.newBlocks ++ [blk] }
      if acc.hasNonImageText then
        some { acc with
          content := acc.content ++
            [(" [" ++ imageCaption child.attrAlt child.attrSrc ++ "]", top)] }
      else some acc
    | _, _ => none
  else if child.type = "link_close" then
    match acc.styleStack, acc.linkStack with
    | _ :: styleRest, _ :: linkRest =>
      some { acc with styleStack := styleRest, linkStack := linkRest }
    | _, _ => none
  else if strEnds "_close" child.type then
    match acc.styleStack with
    | _ :: styleRest => some { acc with styleStack := styleRest }
    | _ => none
  else if child.content ≠ "" then
    match acc.styleStack.head? with
    | none => none
    | some top =>
      some { acc with content := acc.content ++ [(child.content, top)], hasNonImageText := true }
  else
    some acc

/-- Embedding of `ImageMarkdownParagraph.build_from_token`: runs the inline loop
seeded with one empty style and one empty link target, appends the produced image
blocks to the paragraph, and sets its content — cleared again when the paragraph
had no non-image text but does carry blocks. -/
def buildFromToken (para : Block) (token : Token) : Option Block :=
  let init : InlineAcc :=
    { styleStack := [[]], linkStack := [none], content := [], hasNonImageText := false
      newBlocks := [] }
  match token.children.foldlM inlineStep init with
  | none => none
  | some acc =>
    let blocks := para.blocks ++ acc.newBlocks
    let content := if acc.hasNonImageText = false && !blocks.isEmpty then [] else acc.content
    some (Block.node para.kind para.idStr blocks content para.frogHeadingText)

/-! ## Block builder (`ImageMarkdown.update`) -/

/-- A table-of-contents entry: level, heading text, block id. -/
abbrev TocEntry := Nat × String × Option String

structure BuildState where
  output : List Block
  stack : List Block
  toc : List TocEntry
  blockId : Nat
deriving Repr

def initBuildState : BuildState :=
  { output := [], stack := [], toc := [], blockId := 0 }

/-- The host toolkit's fixed bullet glyph set.  Modelled from the spec: a "fixed
small set of bullet glyphs" (Textual `Markdown.BULLETS`, an external constant);
which glyphs it holds is irrelevant here, only that the set is fixed and indexed
modulo its size. -/
def BULLETS : List String := ["● ", "▪ ", "‣ ", "⭑ ", "⭒ "]

/-- `(stack[-1]._blocks if stack else output).append(block)`. -/
def appendLeaf (b : Block) (s : BuildState) : BuildState :=
  match s.stack with
  | [] => { s with output := s.output ++ [b] }
  | top :: rest => { s with stack := top.appendChild b :: rest }

/-- One iteration of the `for token in parser.parse(markdown)` loop of
`ImageMarkdown.update`, dispatching on the token type in source order.
`unhandled` is the `unhandled_token` extension hook.  `stack.pop()` or
`stack[-1]` on an empty stack raises `IndexError` in Python; the embedding
reports that as `none`, as it does for a heading close whose tag has no
numeric level (`int` raising `ValueError`). -/
def step (unhandled : Token → Option Block) (s : BuildState) (t : Token) :
    Option BuildState :=
  if t.type = "heading_open" then
    let n := s.blockId + 1
    some { s with blockId := n
                  stack := Block.node (BlockKind.heading t.tag)
                    (some ("block" ++ toString n)) [] [] none :: s.stack }
  else if t.type = "hr" then
    some { s with output := s.output ++ [Block.fresh BlockKind.horizontalRule] }
  else if t.type = "paragraph_open" then
    some { s with stack := Block.fresh BlockKind.paragraph :: s.stack }
  else if t.type = "paragraph_close" then
    match s.stack with
    | [] => none
    | popped :: rest => some { s with stack := rest, output := s.output ++ popped.blocks }
  else if t.type = "blockquote_open" then
    some { s with stack := Block.fresh BlockKind.blockQuote :: s.stack }
  else if t.type = "bullet_list_open" then
    some { s with stack := Block.fresh BlockKind.bulletList :: s.stack }
  else if t.type = "ordered_list_open" then
    some { s with stack := Block.fresh BlockKind.orderedList :: s.stack }
  else if t.type = "list_item_open" then
    if t.info ≠ "" then
      some { s with stack := Block.fresh (BlockKind.orderedListItem t.info) :: s.stack }
    else
      let itemCount := s.stack.countP (fun b => b.isUnorderedItem)
      let bullet := BULLETS.getD (itemCount % BULLETS.length) ""
      some { s with stack := Block.fresh (BlockKind.unorderedListItem bullet) :: s.stack }
  else if t.type = "table_open" then
    some { s with stack := Block.fresh BlockKind.table :: s.stack }
  else if t.type = "tbody_open" then
    some { s with stack := Block.fresh BlockKind.tbody :: s.stack }
  else if t.type = "thead_open" then
    some { s with stack := Block.fresh BlockKind.thead :: s.stack }
  else if t.type = "tr_open" then
    some { s with stack := Block.fresh BlockKind.trow :: s.stack }
  else if t.type = "th_open" then
    some { s with stack := Block.fresh BlockKind.th :: s.stack }
  else if t.type = "td_open" then
    some { s with stack := Block.fresh BlockKind.td :: s.stack }
  else if strEnds "_close" t.type then
    match s.stack with
    | [] => none
    | popped :: rest =>
      let s1 := { s with stack := rest }
      if t.type = "heading_close" then
        match strToNat (strDrop 1 t.tag) with
        | none => none
        | some level =>
          let headingText := (popped.frogHeadingText).getD ""
          some (appendLeaf popped
            { s1 with toc := s1.toc ++ [(level, headingText, popped.idStr)] })
      else
        some (appendLeaf popped s1)
  else if t.type = "inline" then
    match s.stack with
    | [] => none
    | top :: rest =>
      if top.isHeading then
        some { s with stack := top.withFrogHeadingText t.content :: rest }
      else
        match buildFromToken top t with
        | none => none
        | some top2 => some { s with stack := top2 :: rest }
  else if t.type = "fence" ∨ t.type = "code_block" then
    some (appendLeaf (Block.fresh (BlockKind.fence (strTrimRight t.content) t.info)) s)
  else
    match unhandled t with
    | some b => some (appendLeaf b s)
    | none => some s

/-- The whole token loop. -/
def buildGo (unhandled : Token → Option Block) (s : BuildState) :
    List Token → Option BuildState
  | [] => some s
  | t :: ts =>
    match step unhandled s t with
    | none => none
    | some s2 => buildGo unhandled s2 ts

/-- Embedding of `ImageMarkdown.update`: run the token loop from the empty state
and hand back the top-level output sequence together with the table of contents. -/
def build (unhandled : Token → Option Block) (ts : List Token) :
    Option (List Block × List TocEntry) :=
  match buildGo unhandled initBuildState ts with
  | none => none
  | some s => some (s.output, s.toc)

/-- The default extension hook: `Markdown.unhandled_token` returns `None`. -/
def noUnhandled : Token → Option Block := fun _ => none

/-! ## Theorems -/

lemma coerceUrl_congr (st st' : ResolverState) (source : String)
    (h : st.baseUrl = st'.baseUrl) : coerceUrl st source = coerceUrl st' source := by
  unfold coerceUrl
  rw [h]

lemma cacheLookup_insert_self (cache : List (String × Bytes)) (key : String) (content : Bytes) :
    cacheLookup ((key, content) :: cache) key = some content := by
  simp [cacheLookup, List.find?]

lemma resolveLocal_shape (env : FsEnv) (st : ResolverState) (source : String) :
    ((resolveLocal env st source).payload.isSome = true ∧
      (resolveLocal env st source).error = none) ∨
    ((resolveLocal env st source).payload = none ∧
      (resolveLocal env st source).error.isSome = true) := by
  simp only [resolveLocal]
  split <;> split
  all_goals first
    | exact Or.inl ⟨rfl, rfl⟩
    | exact Or.inr ⟨rfl, rfl⟩

/-- C4: every outcome `resolve` returns is terminal — exactly one of payload / error
is present: a Success carries a payload and no error, a Failure an error and no
payload, never both, never neither. -/
theorem resolve_outcome_exactly_one (transport : Transport) (env : FsEnv)
    (st : ResolverState) (source : String) (out : ImageLoadResult × ResolverState × List String)
    (h : resolve transport env st source = Except.ok out) :
    (out.1.payload.isSome = true ∧ out.1.error = none) ∨
      (out.1.payload = none ∧ out.1.error.isSome = true) := by
  by_cases hs : source = ""
  · simp [resolve, hs] at h
    subst h
    right
    simp
  · rcases hco : coerceUrl st source with _ | url
    · simp [resolve, hs, hco] at h
      subst h
      exact resolveLocal_shape env st source
    · rcases hc : cacheLookup st.cache (urlToString url) with _ | content
      · rcases htr : transport url with c | m | m <;>
          simp [resolve, hs, hco, resolveRemote, hc, clientGet, htr] at h <;>
          subst h
        · left
          simp
        · right
          simp
        · right
          simp
      · simp [resolve, hs, hco, resolveRemote, hc] at h
        subst h
        left
        simp

/-- C4 witness: the exactly-one property at a concrete resolution (the empty
source), with the hypothesis discharged by evaluation. -/
theorem resolve_outcome_exactly_one_witness :
    ((({ location := "", payload := none, error := some "Empty image source" },
        ({} : ResolverState), ([] : List String)) :
          ImageLoadResult × ResolverState × List String).1.payload.isSome = true ∧
      (({ location := "", payload := none, error := some "Empty image source" },
        ({} : ResolverState), ([] : List String)) :
          ImageLoadResult × ResolverState × List String).1.error = none) ∨
    ((({ location := "", payload := none, error := some "Empty image source" },
        ({} : ResolverState), ([] : List String)) :
          ImageLoadResult × ResolverState × List String).1.payload = none ∧
      (({ location := "", payload := none, error := some "Empty image source" },
        ({} : ResolverState), ([] : List String)) :
          ImageLoadResult × ResolverState × List String).1.error.isSome = true) :=
  resolve_outcome_exactly_one (fun _ => TransportBehavior.reqErr "boom")
    { cwd := { absolute := true, segs := [] }, home := { absolute := true, segs := [] }
      fileExists := fun _ => false }
    {} "" _ (by rfl)

/-- C5: `resolve` never raises — for every source string, base-location state,
filesystem environment and transport behaviour (success, HTTP status error,
transport-level error) the call returns a terminal outcome through its value;
every exception of the modelled fetch path is caught. -/
theorem resolve_never_raises (transport : Transport) (env : FsEnv)
    (st : ResolverState) (source : String) :
    ∃ out, resolve transport env st source = Except.ok out := by
  rcases hres : resolve transport env st source with e | out
  · exfalso
    by_cases hs : source = ""
    · simp [resolve, hs] at hres
    · rcases hco : coerceUrl st source with _ | url
      · simp [resolve, hs, hco] at hres
      · rcases hc : cacheLookup st.cache (urlToString url) with _ | content
        · rcases htr : transport url with c | m | m <;>
            simp [resolve, hs, hco, resolveRemote, hc, clientGet, htr] at hres
        · simp [resolve, hs, hco, resolveRemote, hc] at hres
  · exact ⟨out, rfl⟩

/-- C3: once a remote reference has been fetched successfully, a second `resolve`
with the same source against the unchanged base returns a Success whose payload
is the very bytes stored by the first call, and the transport is not invoked
again — the cache-hit path returns before any client use (its invocation list is
empty), whatever the second transport would answer. -/
theorem remote_second_resolve_is_cache_hit (t1 t2 : Transport) (env : FsEnv)
    (st : ResolverState) (source : String) (url : Url) (content : Bytes)
    (hs : source ≠ "")
    (hurl : coerceUrl st source = some url)
    (hmiss : cacheLookup st.cache (urlToString url) = none)
    (hfetch : t1 url = TransportBehavior.ok content) :
    ∃ st1 : ResolverState,
      resolve t1 env st source =
        Except.ok ({ location := urlToString url
                     payload := some (Payload.bytes content), error := none }, st1,
                   [urlToString url]) ∧
      st1.baseUrl = st.baseUrl ∧ st1.basePath = st.basePath ∧
      resolve t2 env st1 source =
        Except.ok ({ location := urlToString url
                     payload := some (Payload.bytes content), error := none }, st1, []) := by
  refine ⟨{ st with clientCreated := true, cache := (urlToString url, content) :: st.cache },
    ?_, rfl, rfl, ?_⟩
  · simp [resolve, hs, hurl, resolveRemote, hmiss, clientGet, hfetch]
  · have hurl2 : coerceUrl
        { st with clientCreated := true, cache := (urlToString url, content) :: st.cache }
        source = some url :=
      (coerceUrl_congr _ st source rfl).trans hurl
    simp [resolve, hs, hurl2, resolveRemote, cacheLookup_insert_self]

/-- C3 witness: base URL `https://example.com/docs/readme.md`, source `img/one.jpg`,
first transport answering bytes `abc`, second transport failing — the second
resolve still answers the cached bytes without a transport call. -/
theorem remote_second_resolve_is_cache_hit_witness :
    ∃ st1 : ResolverState,
      resolve (fun _ => TransportBehavior.ok [97, 98, 99])
          { cwd := { absolute := true, segs := [] }
            home := { absolute := true, segs := [] }, fileExists := fun _ => false }
          { baseUrl := some { scheme := "https", body := "example.com/docs/readme.md" } }
          "img/one.jpg" =
        Except.ok ({ location := urlToString
                       { scheme := "https", body := "example.com/docs/img/one.jpg" }
                     payload := some (Payload.bytes [97, 98, 99]), error := none }, st1,
                   [urlToString { scheme := "https", body := "example.com/docs/img/one.jpg" }]) ∧
      st1.baseUrl =
        ({ baseUrl := some { scheme := "https", body := "example.com/docs/readme.md" } } :
          ResolverState).baseUrl ∧
      st1.basePath =
        ({ baseUrl := some { scheme := "https", body := "example.com/docs/readme.md" } } :
          ResolverState).basePath ∧
      resolve (fun _ => TransportBehavior.reqErr "network down")
          { cwd := { absolute := true, segs := [] }
            home := { absolute := true, segs := [] }, fileExists := fun _ => false }
          st1 "img/one.jpg" =
        Except.ok ({ location := urlToString
                       { scheme := "https", body := "example.com/docs/img/one.jpg" }
                     payload := some (Payload.bytes [97, 98, 99]), error := none }, st1, []) :=
  remote_second_resolve_is_cache_hit
    (fun _ => TransportBehavior.ok [97, 98, 99])
    (fun _ => TransportBehavior.reqErr "network down")
    { cwd := { absolute := true, segs := [] }
      home := { absolute := true, segs := [] }, fileExists := fun _ => false }
    { baseUrl := some { scheme := "https", body := "example.com/docs/readme.md" } }
    "img/one.jpg" { scheme := "https", body := "example.com/docs/img/one.jpg" }
    [97, 98, 99] (by decide) (by rfl) (by rfl) (by rfl)

/-- C10: a failed remote fetch (HTTP status error or transport error) leaves the
cache without an entry for the URL and both base-location fields untouched, so a
subsequent resolve of the same source reaches the transport again instead of
replaying the failure. -/
theorem remote_failure_not_cached (t1 t2 : Transport) (env : FsEnv)
    (st : ResolverState) (source : String) (url : Url) (msg : String)
    (hs : source ≠ "")
    (hurl : coerceUrl st source = some url)
    (hmiss : cacheLookup st.cache (urlToString url) = none)
    (hfail : t1 url = TransportBehavior.statusErr msg ∨
      t1 url = TransportBehavior.reqErr msg) :
    resolve t1 env st source =
      Except.ok ({ location := urlToString url, payload := none, error := some msg },
        { st with clientCreated := true }, [urlToString url]) ∧
    cacheLookup ({ st with clientCreated := true } : ResolverState).cache
      (urlToString url) = none ∧
    ({ st with clientCreated := true } : ResolverState).baseUrl = st.baseUrl ∧
    ({ st with clientCreated := true } : ResolverState).basePath = st.basePath ∧
    (∃ out1 st2,
      resolve t2 env { st with clientCreated := true } source =
        Except.ok (out1, st2, [urlToString url])) := by
  have hurl2 : coerceUrl ({ st with clientCreated := true } : ResolverState) source
      = some url :=
    (coerceUrl_congr _ st source rfl).trans hurl
  refine ⟨?_, hmiss, rfl, rfl, ?_⟩
  · rcases hfail with hfail | hfail <;>
      simp [resolve, hs, hurl, resolveRemote, hmiss, clientGet, hfail]
  · rcases htr : t2 url with c | m | m
    · exact ⟨{ location := urlToString url, payload := some (Payload.bytes c), error := none },
        { st with clientCreated := true, cache := (urlToString url, c) :: st.cache },
        by simp [resolve, hs, hurl2, resolveRemote, hmiss, clientGet, htr]⟩
    · exact ⟨{ location := urlToString url, payload := none, error := some m },
        { st with clientCreated := true },
        by simp [resolve, hs, hurl2, resolveRemote, hmiss, clientGet, htr]⟩
    · exact ⟨{ location := urlToString url, payload := none, error := some m },
        { st with clientCreated := true },
        by simp [resolve, hs, hurl2, resolveRemote, hmiss, clientGet, htr]⟩

/-- C10 witness: a 404 status failure at a concrete URL is returned, uncached. -/
theorem remote_failure_not_cached_witness :
    resolve (fun _ => TransportBehavior.statusErr "Client error 404 Not Found")
        { cwd := { absolute := true, segs := [] }
          home := { absolute := true, segs := [] }, fileExists := fun _ => false }
        { baseUrl := some { scheme := "https", body := "example.com/docs/readme.md" } }
        "img/missing.jpg" =
      Except.ok ({ location := urlToString
                     { scheme := "https", body := "example.com/docs/img/missing.jpg" }
                   payload := none, error := some "Client error 404 Not Found" },
        { ({ baseUrl := some { scheme := "https", body := "example.com/docs/readme.md" } } :
            ResolverState) with clientCreated := true },
        [urlToString { scheme := "https", body := "example.com/docs/img/missing.jpg" }]) :=
  (remote_failure_not_cached
    (fun _ => TransportBehavior.statusErr "Client error 404 Not Found")
    (fun _ => TransportBehavior.statusErr "Client error 404 Not Found")
    { cwd := { absolute := true, segs := [] }
      home := { absolute := true, segs := [] }, fileExists := fun _ => false }
    { baseUrl := some { scheme := "https", body := "example.com/docs/readme.md" } }
    "img/missing.jpg" { scheme := "https", body := "example.com/docs/img/missing.jpg" }
    "Client error 404 Not Found" (by decide) (by rfl) (by rfl) (Or.inl (by rfl))).1

/-- The candidate path of the amended C2 claim, in the claim's own words: a
non-absolute reference is joined under the base directory (or the working
directory when no base is set) and the joined path — not the bare reference —
gets its leading home shorthand expanded and its dot segments normalized; an
absolute reference is used verbatim, with no expansion and no normalization. -/
def localCandidate (env : FsEnv) (st : ResolverState) (source : String) : FsPath :=
  if (parsePath source).absolute then parsePath source
  else
    resolvePath env.cwd
      (expanduser env.home (joinPath (st.basePath.getD env.cwd) (parsePath source)))

lemma resolveLocal_eq (env : FsEnv) (st : ResolverState) (source : String) :
    resolveLocal env st source =
      if env.fileExists (resolvePath env.cwd (localCandidate env st source)) then
        { location := pathToString (localCandidate env st source)
          payload := some (Payload.path (localCandidate env st source)), error := none }
      else
        { location := pathToString (localCandidate env st source), payload := none
          error := some "Image file not found" } := by
  simp only [resolveLocal, localCandidate]
  by_cases habs : (parsePath source).absolute <;> simp [habs]

/-- Environment of the C2 counterexample: empty working directory at the root,
and exactly the file `/a.png` existing. -/
def envC2 : FsEnv :=
  { cwd := { absolute := true, segs := [] }
    home := { absolute := true, segs := ["home", "user"] }
    fileExists := fun p => p = { absolute := true, segs := ["a.png"] } }

/-- C2 counterexample: the absolute local reference `/x/../a.png` is resolved as a
Success (its target exists), but neither the outcome's location nor its path
payload is the normalized path `/a.png` — the code normalizes only non-absolute
references, while the claim requires normalization before any existence check for
every local reference. -/
theorem resolve_local_not_normalized_cex :
    resolve (fun _ => TransportBehavior.reqErr "unused") envC2 {} "/x/../a.png" =
      Except.ok ({ location := "/x/../a.png"
                   payload := some (Payload.path
                     { absolute := true, segs := ["x", "..", "a.png"] })
                   error := none }, {}, []) ∧
    pathToString (resolvePath envC2.cwd (parsePath "/x/../a.png")) = "/a.png" ∧
    ("/x/../a.png" : String) ≠ "/a.png" ∧
    parsePath "/x/../a.png" ≠ resolvePath envC2.cwd (parsePath "/x/../a.png") := by
  refine ⟨by rfl, by rfl, by decide, by decide⟩

/-- C2 amended: for every non-empty reference classified as local, the outcome is
computed from the candidate path that joins a non-absolute reference under the
base directory (or the working directory), expands a leading home shorthand of
the joined path and normalizes it — an absolute reference being used verbatim —
and resolve returns Success with that candidate as payload when it exists,
otherwise Failure "Image file not found" with the candidate as location. -/
theorem resolve_local_amended (t : Transport) (env : FsEnv) (st : ResolverState)
    (source : String) (hs : source ≠ "") (hlocal : coerceUrl st source = none) :
    ∃ r : ImageLoadResult,
      resolve t env st source = Except.ok (r, st, []) ∧
      r.location = pathToString (localCandidate env st source) ∧
      (env.fileExists (resolvePath env.cwd (localCandidate env st source)) = true →
        r.payload = some (Payload.path (localCandidate env st source)) ∧ r.error = none) ∧
      (env.fileExists (resolvePath env.cwd (localCandidate env st source)) = false →
        r.payload = none ∧ r.error = some "Image file not found") := by
  refine ⟨resolveLocal env st source, by simp [resolve, hs, hlocal], ?_, ?_, ?_⟩ <;>
    rw [resolveLocal_eq] <;> split <;> simp_all

/-- C2 amended witness: base directory `/docs`, reference `pic.png`, file existing
at `/docs/pic.png` — Success with the path `/docs/pic.png` as payload. -/
theorem resolve_local_amended_witness :
    ∃ r : ImageLoadResult,
      resolve (fun _ => TransportBehavior.reqErr "unused")
          { cwd := { absolute := true, segs := [] }
            home := { absolute := true, segs := ["home", "user"] }
            fileExists := fun p => p = { absolute := true, segs := ["docs", "pic.png"] } }
          { basePath := some { absolute := true, segs := ["docs"] } } "pic.png" =
        Except.ok (r, { basePath := some { absolute := true, segs := ["docs"] } }, []) ∧
      r.location = pathToString (localCandidate
        { cwd := { absolute := true, segs := [] }
          home := { absolute := true, segs := ["home", "user"] }
          fileExists := fun p => p = { absolute := true, segs := ["docs", "pic.png"] } }
        { basePath := some { absolute := true, segs := ["docs"] } } "pic.png") ∧
      (({ cwd := { absolute := true, segs := [] }
          home := { absolute := true, segs := ["home", "user"] }
          fileExists := fun p => p = { absolute := true, segs := ["docs", "pic.png"] } } :
            FsEnv).fileExists (resolvePath { absolute := true, segs := [] }
          (localCandidate
            { cwd := { absolute := true, segs := [] }
              home := { absolute := true, segs := ["home", "user"] }
              fileExists := fun p => p = { absolute := true, segs := ["docs", "pic.png"] } }
            { basePath := some { absolute := true, segs := ["docs"] } } "pic.png")) = true →
        r.payload = some (Payload.path (localCandidate
          { cwd := { absolute := true, segs := [] }
            home := { absolute := true, segs := ["home", "user"] }
            fileExists := fun p => p = { absolute := true, segs := ["docs", "pic.png"] } }
          { basePath := some { absolute := true, segs := ["docs"] } } "pic.png")) ∧
          r.error = none) ∧
      (({ cwd := { absolute := true, segs := [] }
          home := { absolute := true, segs := ["home", "user"] }
          fileExists := fun p => p = { absolute := true, segs := ["docs", "pic.png"] } } :
            FsEnv).fileExists (resolvePath { absolute := true, segs := [] }
          (localCandidate
            { cwd := { absolute := true, segs := [] }
              home := { absolute := true, segs := ["home", "user"] }
              fileExists := fun p => p = { absolute := true, segs := ["docs", "pic.png"] } }
            { basePath := some { absolute := true, segs := ["docs"] } } "pic.png")) = false →
        r.payload = none ∧ r.error = some "Image file not found") :=
  resolve_local_amended (fun _ => TransportBehavior.reqErr "unused")
    { cwd := { absolute := true, segs := [] }
      home := { absolute := true, segs := ["home", "user"] }
      fileExists := fun p => p = { absolute := true, segs := ["docs", "pic.png"] } }
    { basePath := some { absolute := true, segs := ["docs"] } } "pic.png"
    (by decide) (by rfl)

lemma strAppendAssoc (a b c : String) : (a ++ b) ++ c = a ++ (b ++ c) := by
  rcases a with ⟨da⟩
  rcases b with ⟨db⟩
  rcases c with ⟨dc⟩
  show String.mk ((da ++ db) ++ dc) = String.mk (da ++ (db ++ dc))
  rw [List.append_assoc]

/-- C7: mounting an Image Block while the image-rendering capability is absent
moves it directly to the failed state with the fixed message
"Inline images require textual-image", shows that message suffixed to the
caption, and creates no load task — and since the resolver is reachable only
from inside a load task, its resolve is never called for the block. -/
theorem capability_absent_fails_without_resolution (s : MIState)
    (hsup : s.supportAvailable = false) (hfresh : s.loadTask = false) :
    onMount s = { s with lastError := some "Inline images require textual-image"
                         shown := initialCaption s
                           ++ " (Inline images require textual-image)" } ∧
    (onMount s).loadTask = false ∧
    (onMount s).imageWidget = s.imageWidget := by
  have hstr : initialCaption s ++ " (" ++ "Inline images require textual-image" ++ ")"
      = initialCaption s ++ " (Inline images require textual-image)" := by
    rw [strAppendAssoc, strAppendAssoc]
    rfl
  refine ⟨?_, ?_, ?_⟩ <;> simp [onMount, hsup, hfresh, hstr]

/-- C7 witness: a freshly built block without support, with alt text `Alt`. -/
theorem capability_absent_fails_without_resolution_witness :
    onMount (mkImageBlockState "missing.png" "Alt" "" false none) =
      { mkImageBlockState "missing.png" "Alt" "" false none with
          lastError := some "Inline images require textual-image"
          shown := initialCaption (mkImageBlockState "missing.png" "Alt" "" false none)
            ++ " (Inline images require textual-image)" } ∧
    (onMount (mkImageBlockState "missing.png" "Alt" "" false none)).loadTask = false ∧
    (onMount (mkImageBlockState "missing.png" "Alt" "" false none)).imageWidget =
      (mkImageBlockState "missing.png" "Alt" "" false none).imageWidget :=
  capability_absent_fails_without_resolution
    (mkImageBlockState "missing.png" "Alt" "" false none) (by rfl) (by rfl)

/-- C8: unmounting an Image Block whose load is pending cancels the task (the
body of `on_unmount` performs no raising operation — the transition functions are
total), and after the cancellation is observed by the coroutine no further state
transition happens: the error stays unset, no image widget is mounted, the shown
caption and tooltip are untouched, and the completion body can no longer run for
the cancelled task, so no Resolved or Failed transition ever occurs. -/
theorem unmount_while_loading_no_transition (s : MIState)
    (htask : s.loadTask = true) (herr : s.lastError = none)
    (hwid : s.imageWidget = false) :
    (onUnmount s).loadTask = false ∧
    (onUnmount s).taskCancelled = true ∧
    (observeCancel (onUnmount s)).lastError = none ∧
    (observeCancel (onUnmount s)).imageWidget = false ∧
    (observeCancel (onUnmount s)).shown = s.shown ∧
    (observeCancel (onUnmount s)).tooltip = s.tooltip ∧
    (∀ r : ImageLoadResult,
      loadFinish r (observeCancel (onUnmount s)) = observeCancel (onUnmount s)) := by
  refine ⟨?_, ?_, ?_, ?_, ?_, ?_, ?_⟩ <;>
    simp [onUnmount, htask, observeCancel, loadFinish, herr, hwid]

/-- C8 witness: a mounted block with support whose load task is pending. -/
theorem unmount_while_loading_no_transition_witness :
    (onUnmount (onMount (mkImageBlockState "pic.png" "Alt" "" true none))).loadTask
      = false ∧
    (onUnmount (onMount (mkImageBlockState "pic.png" "Alt" "" true none))).taskCancelled
      = true ∧
    (observeCancel (onUnmount (onMount
      (mkImageBlockState "pic.png" "Alt" "" true none)))).lastError = none ∧
    (observeCancel (onUnmount (onMount
      (mkImageBlockState "pic.png" "Alt" "" true none)))).imageWidget = false ∧
    (observeCancel (onUnmount (onMount
      (mkImageBlockState "pic.png" "Alt" "" true none)))).shown =
      (onMount (mkImageBlockState "pic.png" "Alt" "" true none)).shown ∧
    (observeCancel (onUnmount (onMount
      (mkImageBlockState "pic.png" "Alt" "" true none)))).tooltip =
      (onMount (mkImageBlockState "pic.png" "Alt" "" true none)).tooltip ∧
    (∀ r : ImageLoadResult,
      loadFinish r (observeCancel (onUnmount (onMount
        (mkImageBlockState "pic.png" "Alt" "" true none)))) =
      observeCancel (onUnmount (onMount
        (mkImageBlockState "pic.png" "Alt" "" true none)))) :=
  unmount_while_loading_no_transition
    (onMount (mkImageBlockState "pic.png" "Alt" "" true none))
    (by rfl) (by rfl) (by rfl)

/-- C9: a list_item_open token without ordered-start info pushes an unordered
list item whose bullet glyph is the fixed glyph set indexed, modulo the set's
size, by the number of unordered list items currently on the open-container
stack; a list_item_open carrying start info pushes an ordered list item with
that explicit index. -/
theorem list_item_numbering (unh : Token → Option Block) (s : BuildState) (t : Token)
    (hty : t.type = "list_item_open") :
    (t.info = "" →
      step unh s t =
        some { s with
          stack :=
            Block.fresh
              (BlockKind.unorderedListItem
                (BULLETS.getD ((s.stack.countP fun b => b.isUnorderedItem) % BULLETS.length)
                  "")) ::
              s.stack }) ∧
    (t.info ≠ "" →
      step unh s t =
        some { s with stack := Block.fresh (BlockKind.orderedListItem t.info) :: s.stack }) := by
  constructor <;> intro hinfo <;> simp [step, hty, hinfo]

lemma appendLeaf_toc (b : Block) (s : BuildState) : (appendLeaf b s).toc = s.toc := by
  unfold appendLeaf
  split <;> rfl

lemma step_toc_length (unh : Token → Option Block) (s : BuildState) (t : Token)
    (s2 : BuildState) (h : step unh s t = some s2) :
    s2.toc.length = s.toc.length + (if t.type = "heading_close" then 1 else 0) := by
  by_cases h1 : t.type = "heading_open"
  · simp [step, h1] at h
    subst h
    simp [h1]
  by_cases h2 : t.type = "hr"
  · simp [step, h1, h2] at h
    subst h
    simp [h2]
  by_cases h3 : t.type = "paragraph_open"
  · simp [step, h1, h2, h3] at h
    subst h
    simp [h3]
  by_cases h4 : t.type = "paragraph_close"
  · rcases hst : s.stack with _ | ⟨popped, rest⟩ <;>
      simp [step, h1, h2, h3, h4, hst] at h
    subst h
    simp [h4]
  by_cases h5 : t.type = "blockquote_open"
  · simp [step, h1, h2, h3, h4, h5] at h
    subst h
    simp [h5]
  by_cases h6 : t.type = "bullet_list_open"
  · simp [step, h1, h2, h3, h4, h5, h6] at h
    subst h
    simp [h6]
  by_cases h7 : t.type = "ordered_list_open"
  · simp [step, h1, h2, h3, h4, h5, h6, h7] at h
    subst h
    simp [h7]
  by_cases h8 : t.type = "list_item_open"
  · by_cases hi : t.info = "" <;>
      simp [step, h1, h2, h3, h4, h5, h6, h7, h8, hi] at h <;>
      subst h <;> simp [h8]
  by_cases h9 : t.type = "table_open"
  · simp [step, h1, h2, h3, h4, h5, h6, h7, h8, h9] at h
    subst h
    simp [h9]
  by_cases h10 : t.type = "tbody_open"
  · simp [step, h1, h2, h3, h4, h5, h6, h7, h8, h9, h10] at h
    subst h
    simp [h10]
  by_cases h11 : t.type = "thead_open"
  · simp [step, h1, h2, h3, h4, h5, h6, h7, h8, h9, h10, h11] at h
    subst h
    simp [h11]
  by_cases h12 : t.type = "tr_open"
  · simp [step, h1, h2, h3, h4, h5, h6, h7, h8, h9, h10, h11, h12] at h
    subst h
    simp [h12]
  by_cases h13 : t.type = "th_open"
  · simp [step, h1, h2, h3, h4, h5, h6, h7, h8, h9, h10, h11, h12, h13] at h
    subst h
    simp [h13]
  by_cases h14 : t.type = "td_open"
  · simp [step, h1, h2, h3, h4, h5, h6, h7, h8, h9, h10, h11, h12, h13, h14] at h
    subst h
    simp [h14]
  by_cases hE : strEnds "_close" t.type = true
  · rcases hst : s.stack with _ | ⟨popped, rest⟩ <;>
      simp [step, h1, h2, h3, h4, h5, h6, h7, h8, h9, h10, h11, h12, h13, h14, hE, hst] at h
    by_cases hhc : t.type = "heading_close"
    · rcases hlv : strToNat (strDrop 1 t.tag) with _ | lvl <;>
        simp [hhc, hlv] at h
      subst h
      simp [appendLeaf_toc, hhc]
    · simp [hhc] at h
      subst h
      simp [appendLeaf_toc, hhc]
  have hnhc : ¬ t.type = "heading_close" := by
    intro hh
    rw [hh] at hE
    exact hE (by decide)
  by_cases hI : t.type = "inline"
  · have hEl : strEnds "_close" "inline" = false := by decide
    rcases hst : s.stack with _ | ⟨popped, rest⟩ <;>
      simp [step, h1, h2, h3, h4, h5, h6, h7, h8, h9, h10, h11, h12, h13, h14, hE, hEl, hI,
        hst] at h
    by_cases hH : popped.isHeading = true
    · simp [hH] at h
      subst h
      simp [hnhc]
    · rcases hbf : buildFromToken popped t with _ | top2 <;>
        simp [hH, hbf] at h
      subst h
      simp [hnhc]
  by_cases hF : t.type = "fence" ∨ t.type = "code_block"
  · simp [step, h1, h2, h3, h4, h5, h6, h7, h8, h9, h10, h11, h12, h13, h14, hE, hI] at h
    rw [if_pos hF] at h
    simp at h
    subst h
    simp [appendLeaf_toc, hnhc]
  · simp [step, h1, h2, h3, h4, h5, h6, h7, h8, h9, h10, h11, h12, h13, h14, hE, hI] at h
    rw [if_neg hF] at h
    rcases hu : unh t with _ | b <;> simp [hu] at h <;> subst h <;>
      simp [appendLeaf_toc, hnhc]


lemma buildGo_toc_length (unh : Token → Option Block) (ts : List Token) :
    ∀ (s s2 : BuildState), buildGo unh s ts = some s2 →
      s2.toc.length = s.toc.length + ts.countP (fun t => t.type = "heading_close") := by
  induction ts with
  | nil =>
    intro s s2 h
    simp [buildGo] at h
    subst h
    simp
  | cons t ts ih =>
    intro s s2 h
    simp only [buildGo] at h
    rcases hstep : step unh s t with _ | s1
    · rw [hstep] at h
      cases h
    rw [hstep] at h
    · have hlen := step_toc_length unh s t s1 hstep
      have htail := ih s1 s2 h
      by_cases hp : t.type = "heading_close"
      all_goals simp [hp, List.countP_cons, htail, hlen]
      all_goals omega

/-- C6: each heading contributes exactly one table-of-contents entry, in document
order: the inline token processed while the heading is the stack top stores its
raw content on the heading block; the heading close pops the block and appends one
entry made of the level parsed from the close token's tag, that captured text, and
the block's stable id; and a full build yields exactly as many entries as there
are heading closes in the stream. -/
theorem toc_one_entry_per_heading (unh : Token → Option Block) :
    (∀ (s : BuildState) (t : Token) (b : Block) (rest : List Block),
      t.type = "inline" → s.stack = b :: rest → b.isHeading = true →
      step unh s t = some { s with stack := b.withFrogHeadingText t.content :: rest }) ∧
    (∀ (s : BuildState) (t : Token) (b : Block) (rest : List Block) (lvl : Nat)
        (txt : String),
      t.type = "heading_close" → s.stack = b :: rest →
      strToNat (strDrop 1 t.tag) = some lvl → b.frogHeadingText = some txt →
      step unh s t =
        some (appendLeaf b { s with stack := rest, toc := s.toc ++ [(lvl, txt, b.idStr)] })) ∧
    (∀ (ts : List Token) (out : List Block) (toc : List TocEntry),
      build unh ts = some (out, toc) →
      toc.length = ts.countP (fun t => t.type = "heading_close")) := by
  refine ⟨?_, ?_, ?_⟩
  · intro s t b rest hty hst hhead
    have hEl : strEnds "_close" "inline" = false := by decide
    simp [step, hty, hEl, hst, hhead]
  · intro s t b rest lvl txt hty hst hlvl hcap
    have hEc : strEnds "_close" "heading_close" = true := by decide
    simp [step, hty, hEc, hst, hlvl, hcap]
  · intro ts out toc h
    unfold build at h
    rcases hgo : buildGo unh initBuildState ts with _ | sEnd <;> rw [hgo] at h
    · cases h
    · have := buildGo_toc_length unh ts initBuildState sEnd hgo
      simp only [Option.some.injEq, Prod.mk.injEq] at h
      rw [← h.2]
      simpa [initBuildState] using this

/-- The heading block as it stands right after its open token. -/
def headingOpenC6 : Block := Block.node (BlockKind.heading "h2") (some "block1") [] [] none

def stInlineC6 : BuildState :=
  { output := [], stack := [headingOpenC6], toc := [], blockId := 1 }

def stCloseC6 : BuildState :=
  { output := [], stack := [headingOpenC6.withFrogHeadingText "Title"], toc := [], blockId := 1 }

def tsC6 : List Token :=
  [ { type := "heading_open", tag := "h1" },
    { type := "inline", content := "Alpha" },
    { type := "heading_close", tag := "h1" },
    { type := "heading_open", tag := "h3" },
    { type := "inline", content := "Beta" },
    { type := "heading_close", tag := "h3" } ]

/-- C6 witness: the capture step, the close step, and the per-heading count on a
two-heading stream, each at concrete inputs. -/
theorem toc_one_entry_per_heading_witness :
    step noUnhandled stInlineC6 { type := "inline", content := "Title" } =
      some { stInlineC6 with
        stack := headingOpenC6.withFrogHeadingText "Title" :: [] } ∧
    step noUnhandled stCloseC6 { type := "heading_close", tag := "h2" } =
      some (appendLeaf (headingOpenC6.withFrogHeadingText "Title")
        { stCloseC6 with
            stack := []
            toc := stCloseC6.toc ++
              [(2, "Title", (headingOpenC6.withFrogHeadingText "Title").idStr)] }) ∧
    ([(1, "Alpha", some "block1"), (3, "Beta", some "block2")] : List TocEntry).length =
      tsC6.countP (fun t => t.type = "heading_close") :=
  ⟨(toc_one_entry_per_heading noUnhandled).1 stInlineC6
      { type := "inline", content := "Title" } headingOpenC6 [] rfl rfl rfl,
   (toc_one_entry_per_heading noUnhandled).2.1 stCloseC6
      { type := "heading_close", tag := "h2" } (headingOpenC6.withFrogHeadingText "Title") []
      2 "Title" rfl rfl rfl rfl,
   (toc_one_entry_per_heading noUnhandled).2.2 tsC6
      [Block.node (BlockKind.heading "h1") (some "block1") [] [] (some "Alpha"),
       Block.node (BlockKind.heading "h3") (some "block2") [] [] (some "Beta")]
      [(1, "Alpha", some "block1"), (3, "Beta", some "block2")] rfl⟩

/-- Token stream of the C1 counterexample: a paragraph holding one image, nested
inside a block quote, so the container stack is non-empty at the paragraph close. -/
def tsNestedC1 : List Token :=
  [ { type := "blockquote_open" },
    { type := "paragraph_open" },
    { type := "inline", children := [{ type := "image", attrSrc := "pic.png" }] },
    { type := "paragraph_close" },
    { type := "blockquote_close" } ]

def imgTopC1 : Block := Block.node (BlockKind.image "pic.png" "" "" [] none) none [] [] none

def emptyQuoteC1 : Block := Block.node BlockKind.blockQuote none [] [] none

/-- C1 counterexample: with the block quote still open (non-empty stack), the
closed paragraph's child is spliced into the top-level output — ahead of the
block quote — and the block quote ends up with no children, where the claim
requires the child to be appended to the new stack top's children and the
top-level sequence to consist of the block quote alone. -/
theorem paragraph_splice_goes_to_output_cex :
    build noUnhandled tsNestedC1 = some ([imgTopC1, emptyQuoteC1], []) ∧
    emptyQuoteC1.blocks = [] ∧
    imgTopC1.kind = BlockKind.image "pic.png" "" "" [] none := by
  exact ⟨rfl, rfl, rfl⟩

/-- Token stream of the C1 round trip: one heading, one paragraph holding one
image plus trailing text, one fence. -/
def tsRoundC1 : List Token :=
  [ { type := "heading_open", tag := "h2" },
    { type := "inline", content := "Title" },
    { type := "heading_close", tag := "h2" },
    { type := "paragraph_open" },
    { type := "inline", children :=
        [ { type := "image", attrSrc := "pic.png", attrAlt := "Alt" },
          { type := "text", content := " trailing" } ] },
    { type := "paragraph_close" },
    { type := "fence", content := "code\n", info := "py" } ]

def headingRoundC1 : Block :=
  Block.node (BlockKind.heading "h2") (some "block1") [] [] (some "Title")

def imageRoundC1 : Block :=
  Block.node (BlockKind.image "pic.png" "Alt" "" [] none) none [] [] none

def fenceRoundC1 : Block := Block.node (BlockKind.fence "code" "py") none [] [] none

/-- C1 amended: a paragraph close splices the popped paragraph's children into
the top-level output sequence unconditionally — whether or not the container
stack is still non-empty — and the heading/paragraph-with-image-and-text/fence
round trip indeed yields a top-level sequence of exactly 3 nodes in original
order (heading, the paragraph's image child, fence) with one table-of-contents
entry. -/
theorem paragraph_splice_amended (unh : Token → Option Block) (s : BuildState)
    (t : Token) (popped : Block) (rest : List Block)
    (hty : t.type = "paragraph_close") (hst : s.stack = popped :: rest) :
    step unh s t = some { s with stack := rest, output := s.output ++ popped.blocks } ∧
    build noUnhandled tsRoundC1 =
      some ([headingRoundC1, imageRoundC1, fenceRoundC1], [(2, "Title", some "block1")]) ∧
    [headingRoundC1, imageRoundC1, fenceRoundC1].length = 3 := by
  refine ⟨?_, rfl, rfl⟩
  simp [step, hty, hst]

def stParaC1 : BuildState :=
  { output := [], stack := [Block.node BlockKind.paragraph none [imageRoundC1] [] none,
      Block.fresh BlockKind.blockQuote], toc := [], blockId := 0 }

/-- C1 amended witness: closing a paragraph holding one image block while a block
quote is still open splices the image into the top-level output. -/
theorem paragraph_splice_amended_witness :
    step noUnhandled stParaC1 { type := "paragraph_close" } =
      some { stParaC1 with
        stack := [Block.fresh BlockKind.blockQuote]
        output := stParaC1.output ++
          (Block.node BlockKind.paragraph none [imageRoundC1] [] none).blocks } ∧
    build noUnhandled tsRoundC1 =
      some ([headingRoundC1, imageRoundC1, fenceRoundC1], [(2, "Title", some "block1")]) ∧
    [headingRoundC1, imageRoundC1, fenceRoundC1].length = 3 :=
  paragraph_splice_amended noUnhandled stParaC1 { type := "paragraph_close" }
    (Block.node BlockKind.paragraph none [imageRoundC1] [] none)
    [Block.fresh BlockKind.blockQuote] rfl rfl

def stItemsC9 : BuildState :=
  { output := []
    stack := [Block.fresh (BlockKind.unorderedListItem "● "), Block.fresh BlockKind.bulletList]
    toc := [], blockId := 0 }

/-- C9 witness: with one unordered item already on the stack the next unordered
item takes the bullet at index 1, and an ordered item takes its token's info. -/
theorem list_item_numbering_witness :
    step noUnhandled stItemsC9 { type := "list_item_open" } =
      some { stItemsC9 with
        stack :=
          Block.fresh
            (BlockKind.unorderedListItem
              (BULLETS.getD ((stItemsC9.stack.countP fun b => b.isUnorderedItem) % BULLETS.length)
                "")) ::
            stItemsC9.stack } ∧
    step noUnhandled stItemsC9 { type := "list_item_open", info := "3" } =
      some { stItemsC9 with
        stack := Block.fresh (BlockKind.orderedListItem "3") :: stItemsC9.stack } :=
  ⟨(list_item_numbering noUnhandled stItemsC9 { type := "list_item_open" } rfl).1 rfl,
   (list_item_numbering noUnhandled stItemsC9 { type := "list_item_open", info := "3" } rfl).2
     (by decide)⟩
